import Mathlib

/-!
Formal model of the AI-advisory chat subsystem of the NeoFinance frontend.

The definitions below are shallow embeddings of:
* `src/frontend/src/hooks/useAIChat.js` — chat state, `sendMessage`,
  `analyzeBudget`, `clearMessages`;
* `src/frontend/src/components/AIChat/ChatInput.jsx` — `handleSubmit`;
* `src/frontend/src/components/AIChat/QuickQuestions.jsx` (shipped as
  `src/unnamed/part_002`) and `ChatInterface.jsx` — quick-question
  surfacing and routing;
* `src/frontend/src/components/Dashboard.jsx` and
  `src/frontend/src/components/charts/ExpenseDonutChart.jsx` — the
  expense-percentage computation and the donut slice labels.

Asynchronous calls are modelled as whole-request functions: a call is
parameterised by the clock reading when it starts (`t1`), the resolution
of the single `api.post` dispatch it performs (`ApiResult`), and the
clock reading when that dispatch settles (`t2`).  The axios client in
`src/frontend/src/services/api.js` performs no retries (its response
interceptor re-rejects every error), so each invocation of `sendMessage`
or `analyzeBudget` dispatches at most one HTTP request; the list of
dispatched request payloads is returned alongside the new state.
JavaScript numbers are idealised as `ℚ`, with the non-finite results of
IEEE division represented explicitly by `JSVal`.
-/

/-- One chat message as constructed in `useAIChat.js`.  `id` is the
numeric value of the `Date.now()`-derived id string and `timestamp` the
millisecond value of the stored `Date`.  Normal messages carry
`isError = false`, matching the absent (falsy) `isError` field in JS. -/
structure ChatMessage where
  id : Nat
  text : String
  isUser : Bool
  timestamp : Nat
  isError : Bool
  deriving DecidableEq, Repr

/-- Resolution of the single `api.post` dispatch of a chat call: either a
response carrying `response.data.response` and `response.data.timestamp`,
or a rejection (timeout, transport error or HTTP error). -/
inductive ApiResult where
  | success (responseText : String) (responseTimestamp : Nat)
  | failure
  deriving DecidableEq, Repr

/-- Payload of a `POST /ai-chat/message` dispatch from `sendMessage`. -/
structure MessageRequest where
  question : String
  include_context : Bool
  deriving DecidableEq, Repr

/-- Payload of a `POST /ai-chat/analyze-budget` dispatch from
`analyzeBudget`. -/
structure AnalyzeRequest where
  period_days : Nat
  deriving DecidableEq, Repr

/-- The state held by the `useAIChat` hook: the three `useState` cells
`messages`, `isLoading` and `quickQuestions`. -/
structure ChatState where
  messages : List ChatMessage
  isLoading : Bool
  quickQuestions : List String
  deriving DecidableEq, Repr

/-- The initial hook state: `useState([])`, `useState(false)`,
`useState([])`. -/
def initialChatState : ChatState :=
  { messages := [], isLoading := false, quickQuestions := [] }

/-- Whitespace recognised by JavaScript `String.prototype.trim`
(restricted to the ASCII whitespace characters; the chat strings involved
contain no exotic Unicode whitespace). -/
def isJSWhitespace (c : Char) : Bool :=
  c = ' ' || c = '\t' || c = '\n' || c = '\r' || c = Char.ofNat 11 || c = Char.ofNat 12

/-- JavaScript `String.prototype.trim`: strip leading and trailing
whitespace. -/
def jsTrim (s : String) : String :=
  String.mk (((s.toList.dropWhile isJSWhitespace).reverse.dropWhile isJSWhitespace).reverse)

/-- `sendMessage(question, includeContext)` from `useAIChat.js` lines
25–67.  An empty-after-trim question returns before touching any state
and dispatches nothing.  Otherwise a user message is appended, `isLoading`
is set, one `api.post('/ai-chat/message', ...)` is dispatched, and on
resolution either the AI response or the fixed error fallback is appended;
`finally` clears `isLoading`.  The second component lists the dispatched
request payloads. -/
def sendMessage (question : String) (includeContext : Bool) (st : ChatState)
    (t1 : Nat) (res : ApiResult) (t2 : Nat) : ChatState × List MessageRequest :=
  if jsTrim question = "" then (st, [])
  else
    let userMessage : ChatMessage :=
      { id := t1, text := question, isUser := true, timestamp := t1, isError := false }
    let st1 : ChatState := { st with messages := st.messages ++ [userMessage], isLoading := true }
    match res with
    | .success responseText responseTimestamp =>
        let aiMessage : ChatMessage :=
          { id := t2 + 1, text := responseText, isUser := false,
            timestamp := responseTimestamp, isError := false }
        ({ st1 with messages := st1.messages ++ [aiMessage], isLoading := false },
         [{ question := question, include_context := includeContext }])
    | .failure =>
        let errorMessage : ChatMessage :=
          { id := t2 + 1, text := "Sorry, I encountered an error. Please try again.",
            isUser := false, timestamp := t2, isError := true }
        ({ st1 with messages := st1.messages ++ [errorMessage], isLoading := false },
         [{ question := question, include_context := includeContext }])

/-- `analyzeBudget(periodDays)` from `useAIChat.js` lines 70–106: append
the templated user message, set `isLoading`, dispatch one
`api.post('/ai-chat/analyze-budget', { period_days: periodDays })`, then
append either the AI response or the budget-specific error fallback. -/
def analyzeBudget (periodDays : Nat) (st : ChatState)
    (t1 : Nat) (res : ApiResult) (t2 : Nat) : ChatState × List AnalyzeRequest :=
  let analysisMessage : ChatMessage :=
    { id := t1, text := "Analyze my budget for the last " ++ toString periodDays ++ " days",
      isUser := true, timestamp := t1, isError := false }
  let st1 : ChatState := { st with messages := st.messages ++ [analysisMessage], isLoading := true }
  match res with
  | .success responseText responseTimestamp =>
      let aiMessage : ChatMessage :=
        { id := t2 + 1, text := responseText, isUser := false,
          timestamp := responseTimestamp, isError := false }
      ({ st1 with messages := st1.messages ++ [aiMessage], isLoading := false },
       [{ period_days := periodDays }])
  | .failure =>
      let errorMessage : ChatMessage :=
        { id := t2 + 1, text := "Sorry, I could not analyze your budget. Please try again.",
          isUser := false, timestamp := t2, isError := true }
      ({ st1 with messages := st1.messages ++ [errorMessage], isLoading := false },
       [{ period_days := periodDays }])

/-- `clearMessages` from `useAIChat.js` lines 109–111: `setMessages([])`. -/
def clearMessages (st : ChatState) : ChatState :=
  { st with messages := [] }

/-- `ChatInput.handleSubmit` (`ChatInput.jsx` lines 13–19): on submit,
`onSend(inputValue.trim())` fires only when the trimmed value is truthy
and neither `isLoading` nor `disabled` holds; returns the question passed
to `onSend`, or `none` when the submission is suppressed. -/
def handleSubmit (inputValue : String) (isLoading disabled : Bool) : Option String :=
  if jsTrim inputValue != "" && !isLoading && !disabled then some (jsTrim inputValue)
  else none

/-- The `ChatInterface` wiring of `ChatInput`: `onSend={sendMessage}` with
`isLoading` from the hook, so a submitted question reaches `sendMessage`
with the default `includeContext = true`. -/
def chatInputSend (inputValue : String) (disabled : Bool) (st : ChatState)
    (t1 : Nat) (res : ApiResult) (t2 : Nat) : ChatState × List MessageRequest :=
  match handleSubmit inputValue st.isLoading disabled with
  | some q => sendMessage q true st t1 res t2
  | none => (st, [])

/-- The `ChatInterface` wiring of `QuickQuestions`: the chip click handler
is `() => !isLoading && onSelect(question)` with `onSelect={sendMessage}`,
so a selected question reaches `sendMessage` unchanged (default
`includeContext = true`) unless a request is loading. -/
def quickQuestionSelect (question : String) (st : ChatState)
    (t1 : Nat) (res : ApiResult) (t2 : Nat) : ChatState × List MessageRequest :=
  if st.isLoading then (st, [])
  else sendMessage question true st t1 res t2

/-- Whether the quick-question catalog is rendered: `ChatInterface.jsx`
line 71 guards with `messages.length === 0 &&`, and `QuickQuestions`
itself returns `null` when `!questions || questions.length === 0`. -/
def quickQuestionsSurfaced (messages : List ChatMessage) (questions : List String) : Bool :=
  messages.length == 0 && !questions.isEmpty

/-- The only mutator of the history cell:
`setMessages((prev) => [...prev, m])`. -/
def appendMessage (messages : List ChatMessage) (m : ChatMessage) : List ChatMessage :=
  messages ++ [m]

/-- Repeated appends through `appendMessage`. -/
def appendAll (messages : List ChatMessage) (ms : List ChatMessage) : List ChatMessage :=
  List.foldl appendMessage messages ms

/-- A JavaScript number: a finite rational, `NaN`, or a signed
infinity. -/
inductive JSVal where
  | num (q : ℚ)
  | nan
  | posInf
  | negInf
  deriving DecidableEq, Repr

/-- IEEE division of two finite numbers as JavaScript performs it:
division by zero yields a signed infinity (or `NaN` for `0 / 0`). -/
def jsDivNum (a b : ℚ) : JSVal :=
  if b = 0 then (if 0 < a then .posInf else if a < 0 then .negInf else .nan)
  else .num (a / b)

/-- IEEE multiplication of a JavaScript number by a finite constant. -/
def jsMulNum (v : JSVal) (c : ℚ) : JSVal :=
  match v with
  | .num a => .num (a * c)
  | .nan => .nan
  | .posInf => if 0 < c then .posInf else if c < 0 then .negInf else .nan
  | .negInf => if 0 < c then .negInf else if c < 0 then .posInf else .nan

/-- The percentage computed for one category slice in `Dashboard.jsx`
lines 136–140: `percentage: (amount / total_expense) * 100`, with no
guard on `total_expense`. -/
def categoryPercentage (amount total_expense : ℚ) : JSVal :=
  jsMulNum (jsDivNum amount total_expense) 100

/-- JavaScript `toFixed(0)` on a finite number: the integer closest to the
value, the larger one on a tie (ECMA-262 `Number.prototype.toFixed`). -/
def jsToFixed0 (q : ℚ) : ℤ :=
  Int.floor (q + 1 / 2)

/-- `renderLabel` from `ExpenseDonutChart.jsx` lines 45–47:
`entry.percentage.toFixed(0) + '%'`; `toFixed` stringifies non-finite
values as `NaN` / `Infinity`. -/
def renderLabel (percentage : JSVal) : String :=
  match percentage with
  | .num q => toString (jsToFixed0 q) ++ "%"
  | .nan => "NaN%"
  | .posInf => "Infinity%"
  | .negInf => "-Infinity%"

/-- One entry of the data array `Dashboard.jsx` passes to
`ExpenseDonutChart`. -/
structure CategorySlice where
  name : String
  value : ℚ
  percentage : JSVal
  deriving DecidableEq, Repr

/-- The `Object.entries(expenses_by_category).map(...)` construction in
`Dashboard.jsx` lines 136–140 (`parseFloat` on an already numeric amount
is the identity in this idealisation). -/
def dashboardSlices (expenses_by_category : List (String × ℚ)) (total_expense : ℚ) :
    List CategorySlice :=
  expenses_by_category.map fun p =>
    { name := p.1, value := p.2, percentage := categoryPercentage p.2 total_expense }

/-! ### Helper lemmas -/

theorem jsTrim_length_le (s : String) : (jsTrim s).length ≤ s.length := by
  show (((s.toList.dropWhile isJSWhitespace).reverse.dropWhile
      isJSWhitespace).reverse).length ≤ s.toList.length
  rw [List.length_reverse]
  calc ((s.toList.dropWhile isJSWhitespace).reverse.dropWhile isJSWhitespace).length
      ≤ (s.toList.dropWhile isJSWhitespace).reverse.length :=
        (List.dropWhile_sublist isJSWhitespace).length_le
    _ = (s.toList.dropWhile isJSWhitespace).length := List.length_reverse _
    _ ≤ s.toList.length := (List.dropWhile_sublist isJSWhitespace).length_le

theorem appendAll_length (l ms : List ChatMessage) :
    (appendAll l ms).length = l.length + ms.length := by
  induction ms generalizing l with
  | nil => simp [appendAll]
  | cons m ms ih =>
      have h : appendAll l (m :: ms) = appendAll (l ++ [m]) ms := rfl
      rw [h, ih]
      simp
      omega

/-! ### Claim theorems -/

/-- Claim C9 (confirmed): a question whose JavaScript-trimmed form is
empty makes `sendMessage` a complete no-op — the early return
`if (!question.trim()) return;` fires before any state update, so no
message is appended, `isLoading` is never set, no request is dispatched,
and the session state is returned completely unchanged. -/
theorem sendMessage_blank_question_noop (question : String) (includeContext : Bool)
    (st : ChatState) (t1 : Nat) (res : ApiResult) (t2 : Nat)
    (h : jsTrim question = "") :
    sendMessage question includeContext st t1 res t2 = (st, []) := by
  simp [sendMessage, h]

/-- Witness for C9 at the whitespace-only question consisting of three
spaces and a tab, in the initial hook state. -/
theorem sendMessage_blank_question_noop_witness :
    jsTrim "   \t" = "" ∧
    sendMessage "   \t" true initialChatState 3 ApiResult.failure 7 = (initialChatState, []) :=
  ⟨by decide, sendMessage_blank_question_noop "   \t" true initialChatState 3
    ApiResult.failure 7 (by decide)⟩

/-- Claim C10 (confirmed): a question submitted through the chat input
equals the trimmed input value, hence is at most 500 characters long (the
`Input` element enforces `maxLength={500}` on the value, taken here as
the hypothesis `hlen`), and submission is suppressed whenever a request
is loading or the input is disabled. -/
theorem chatInput_submitted_question_props (inputValue : String) (isLoading disabled : Bool)
    (hlen : inputValue.length ≤ 500) :
    (∀ q, handleSubmit inputValue isLoading disabled = some q →
      q = jsTrim inputValue ∧ q.length ≤ 500) ∧
    (isLoading = true ∨ disabled = true → handleSubmit inputValue isLoading disabled = none) := by
  constructor
  · intro q hq
    unfold handleSubmit at hq
    split at hq
    · cases hq
      exact ⟨rfl, le_trans (jsTrim_length_le inputValue) hlen⟩
    · cases hq
  · rintro (h | h) <;> subst h <;> simp [handleSubmit]

/-- Witness for C10 at the input value consisting of two spaces, the word
hi and two more spaces, with neither flag set. -/
theorem chatInput_submitted_question_props_witness :
    ("  hi  ").length ≤ 500 ∧
    ((∀ q, handleSubmit "  hi  " false false = some q →
        q = jsTrim "  hi  " ∧ q.length ≤ 500) ∧
      (false = true ∨ false = true → handleSubmit "  hi  " false false = none)) :=
  ⟨by decide, chatInput_submitted_question_props "  hi  " false false (by decide)⟩

/-- Claim C7 (confirmed): `analyzeBudget(periodDays)` appends a user
message whose text is exactly the template with `periodDays` substituted,
and the single dispatched request carries exactly `period_days =
periodDays`, so the context is built for the matching period. -/
theorem analyzeBudget_question_template (periodDays : Nat) (st : ChatState)
    (t1 : Nat) (res : ApiResult) (t2 : Nat) :
    (∃ aiReply,
      (analyzeBudget periodDays st t1 res t2).1.messages =
        st.messages ++
          [{ id := t1, text := "Analyze my budget for the last " ++ toString periodDays ++ " days",
             isUser := true, timestamp := t1, isError := false }, aiReply]) ∧
    (analyzeBudget periodDays st t1 res t2).2 = [{ period_days := periodDays }] := by
  cases res with
  | success responseText responseTimestamp =>
      exact ⟨⟨{ id := t2 + 1, text := responseText, isUser := false,
                timestamp := responseTimestamp, isError := false },
        by simp [analyzeBudget]⟩, rfl⟩
  | failure =>
      exact ⟨⟨{ id := t2 + 1, text := "Sorry, I could not analyze your budget. Please try again.",
                isUser := false, timestamp := t2, isError := true },
        by simp [analyzeBudget]⟩, rfl⟩

/-- A session with a request already in flight (`isLoading = true`),
used to probe the busy behaviour of the hook. -/
def busyState : ChatState :=
  { messages := [], isLoading := true, quickQuestions := [] }

/-- Claim C1 as stated is false: with a request already in flight, a
direct second `sendMessage` is not rejected with any busy error — it
changes the message history and dispatches a second request. -/
theorem busy_guard_counterexample :
    (sendMessage "hello" true busyState 0 ApiResult.failure 0).1.messages ≠
      busyState.messages ∧
    (sendMessage "hello" true busyState 0 ApiResult.failure 0).2 ≠ [] := by
  decide

/-- Claim C1 amended: the hook itself has no busy guard and no `BusyError`
value exists anywhere in the code — a second `sendMessage` while
`isLoading` holds still appends the user/assistant pair and dispatches a
request.  One-request-at-a-time is enforced only in the UI layer:
`ChatInput.handleSubmit` and the quick-question click handler suppress
the submission entirely (no call, no state change, nothing dispatched)
while `isLoading` holds. -/
theorem busy_handling_in_ui_only (question : String) (st : ChatState)
    (t1 : Nat) (res : ApiResult) (t2 : Nat)
    (hload : st.isLoading = true) (hq : jsTrim question ≠ "") :
    (sendMessage question true st t1 res t2).1.messages.length = st.messages.length + 2 ∧
    (sendMessage question true st t1 res t2).2.length = 1 ∧
    (∀ inputValue disabled, chatInputSend inputValue disabled st t1 res t2 = (st, [])) ∧
    (∀ q2, quickQuestionSelect q2 st t1 res t2 = (st, [])) := by
  refine ⟨?_, ?_, ?_, ?_⟩
  · cases res <;> simp [sendMessage, hq]
  · cases res <;> simp [sendMessage, hq]
  · intro inputValue disabled
    simp [chatInputSend, handleSubmit, hload]
  · intro q2
    simp [quickQuestionSelect, hload]

/-- Witness for the amended C1 at the busy session and the question
hello. -/
theorem busy_handling_in_ui_only_witness :
    busyState.isLoading = true ∧ jsTrim "hello" ≠ "" ∧
    ((sendMessage "hello" true busyState 0 ApiResult.failure 0).1.messages.length =
        busyState.messages.length + 2 ∧
      (sendMessage "hello" true busyState 0 ApiResult.failure 0).2.length = 1 ∧
      (∀ inputValue disabled,
        chatInputSend inputValue disabled busyState 0 ApiResult.failure 0 = (busyState, [])) ∧
      (∀ q2, quickQuestionSelect q2 busyState 0 ApiResult.failure 0 = (busyState, []))) :=
  ⟨rfl, by decide,
    busy_handling_in_ui_only "hello" busyState 0 ApiResult.failure 0 rfl (by decide)⟩

/-- Claim C2 as stated is false: `analyzeBudget`'s terminal-failure
fallback text is a different fixed string from the one the claim names
for both operations. -/
theorem fallback_text_counterexample :
    ((analyzeBudget 30 initialChatState 0 ApiResult.failure 0).1.messages.map
        ChatMessage.text) =
      ["Analyze my budget for the last 30 days",
       "Sorry, I could not analyze your budget. Please try again."] ∧
    "Sorry, I could not analyze your budget. Please try again." ≠
      "Sorry, I encountered an error. Please try again." := by
  exact ⟨rfl, by decide⟩

/-- Claim C2 amended: on terminal provider failure each operation appends
an assistant message with `error = true` and never throws (both `catch`
blocks swallow the error and return normally, which the embedding shows
by being a total function into states); the fallback text is fixed per
operation but differs between the two operations: `sendMessage` appends
exactly "Sorry, I encountered an error. Please try again." while
`analyzeBudget` appends exactly "Sorry, I could not analyze your budget.
Please try again.". -/
theorem terminal_failure_fallback_messages (question : String) (includeContext : Bool)
    (st : ChatState) (t1 t2 periodDays : Nat) (hq : jsTrim question ≠ "") :
    (∃ u, (sendMessage question includeContext st t1 ApiResult.failure t2).1.messages =
      st.messages ++
        [u, { id := t2 + 1, text := "Sorry, I encountered an error. Please try again.",
              isUser := false, timestamp := t2, isError := true }]) ∧
    (∃ u, (analyzeBudget periodDays st t1 ApiResult.failure t2).1.messages =
      st.messages ++
        [u, { id := t2 + 1, text := "Sorry, I could not analyze your budget. Please try again.",
              isUser := false, timestamp := t2, isError := true }]) := by
  constructor
  · exact ⟨{ id := t1, text := question, isUser := true, timestamp := t1, isError := false },
      by simp [sendMessage, hq]⟩
  · exact ⟨{ id := t1, text := "Analyze my budget for the last " ++ toString periodDays ++ " days",
             isUser := true, timestamp := t1, isError := false },
      by simp [analyzeBudget]⟩

/-- Witness for the amended C2 at the question from Scenario C of the
spec and a thirty-day budget analysis. -/
theorem terminal_failure_fallback_messages_witness :
    jsTrim "biggest expense?" ≠ "" ∧
    ((∃ u, (sendMessage "biggest expense?" true initialChatState 0 ApiResult.failure 0).1.messages =
      initialChatState.messages ++
        [u, { id := 0 + 1, text := "Sorry, I encountered an error. Please try again.",
              isUser := false, timestamp := 0, isError := true }]) ∧
    (∃ u, (analyzeBudget 30 initialChatState 0 ApiResult.failure 0).1.messages =
      initialChatState.messages ++
        [u, { id := 0 + 1, text := "Sorry, I could not analyze your budget. Please try again.",
              isUser := false, timestamp := 0, isError := true }])) :=
  ⟨by decide, terminal_failure_fallback_messages "biggest expense?" true initialChatState 0 0 30
    (by decide)⟩

/-- Claim C3 as stated is false: a request whose single dispatch fails is
never retried — it has performed exactly one provider dispatch, not
two. -/
theorem retry_counterexample :
    (sendMessage "biggest expense?" true initialChatState 0 ApiResult.failure 0).2.length = 1 ∧
    (sendMessage "biggest expense?" true initialChatState 0 ApiResult.failure 0).2.length ≠ 2 := by
  decide

/-- Claim C3 amended: there is no retry anywhere — neither the hook nor
the axios client retries a failed dispatch (the response interceptor in
`api.js` re-rejects every error).  Every advisory call past the
empty-question guard performs exactly one provider dispatch, success or
failure alike, and a single transient failure is already terminal: the
call settles (`isLoading` is cleared) without any further dispatch. -/
theorem no_retry_single_dispatch (question : String) (includeContext : Bool)
    (st : ChatState) (t1 t2 periodDays : Nat) (res : ApiResult)
    (hq : jsTrim question ≠ "") :
    (sendMessage question includeContext st t1 res t2).2.length = 1 ∧
    (analyzeBudget periodDays st t1 res t2).2.length = 1 ∧
    (sendMessage question includeContext st t1 ApiResult.failure t2).1.isLoading = false := by
  refine ⟨?_, ?_, ?_⟩
  · cases res <;> simp [sendMessage, hq]
  · cases res <;> simp [analyzeBudget]
  · simp [sendMessage, hq]

/-- Witness for the amended C3 at the question from Scenario C, a failed
dispatch and a thirty-day analysis. -/
theorem no_retry_single_dispatch_witness :
    jsTrim "biggest expense?" ≠ "" ∧
    ((sendMessage "biggest expense?" true initialChatState 0 ApiResult.failure 9).2.length = 1 ∧
      (analyzeBudget 30 initialChatState 0 ApiResult.failure 9).2.length = 1 ∧
      (sendMessage "biggest expense?" true initialChatState 0 ApiResult.failure 9).1.isLoading =
        false) :=
  ⟨by decide, no_retry_single_dispatch "biggest expense?" true initialChatState 0 9 30
    ApiResult.failure (by decide)⟩

/-- Claim C4 as stated is false: on the success path the assistant
message's timestamp is `new Date(response.data.timestamp)` — the
server-reported value — so a response stamped 0 paired with a user
message sampled locally at 100 yields a strictly decreasing timestamp
pair. -/
theorem message_pair_timestamp_counterexample :
    ((sendMessage "hi" true initialChatState 100 (ApiResult.success "ok" 0) 100).1.messages.map
        ChatMessage.timestamp) = [100, 0] ∧ ¬ (100 : Nat) ≤ 0 := by
  decide

/-- Claim C4 amended: every advisory call past the empty-question guard
appends exactly one user message followed by exactly one assistant
message, with numerically increasing ids (user id `t1`, assistant id
`t2 + 1`, under a non-decreasing clock `t1 ≤ t2`).  Timestamps are
non-decreasing across the pair on the failure path; on the success path
the assistant timestamp is the server-reported `response.data.timestamp`,
which the client does not constrain against the user message's locally
sampled timestamp. -/
theorem advisory_call_appends_pair (question responseText : String) (includeContext : Bool)
    (st : ChatState) (t1 t2 rts periodDays : Nat)
    (hq : jsTrim question ≠ "") (ht : t1 ≤ t2) :
    (∃ u a, (sendMessage question includeContext st t1 ApiResult.failure t2).1.messages =
      st.messages ++ [u, a] ∧ u.isUser = true ∧ a.isUser = false ∧
      u.id < a.id ∧ u.timestamp ≤ a.timestamp) ∧
    (∃ u a,
      (sendMessage question includeContext st t1 (ApiResult.success responseText rts) t2).1.messages =
        st.messages ++ [u, a] ∧ u.isUser = true ∧ a.isUser = false ∧
        u.id < a.id ∧ a.timestamp = rts) ∧
    (∃ u a, (analyzeBudget periodDays st t1 ApiResult.failure t2).1.messages =
      st.messages ++ [u, a] ∧ u.isUser = true ∧ a.isUser = false ∧
      u.id < a.id ∧ u.timestamp ≤ a.timestamp) ∧
    (∃ u a, (analyzeBudget periodDays st t1 (ApiResult.success responseText rts) t2).1.messages =
      st.messages ++ [u, a] ∧ u.isUser = true ∧ a.isUser = false ∧
      u.id < a.id ∧ a.timestamp = rts) := by
  refine ⟨⟨{ id := t1, text := question, isUser := true, timestamp := t1, isError := false },
           { id := t2 + 1, text := "Sorry, I encountered an error. Please try again.",
             isUser := false, timestamp := t2, isError := true },
           by simp [sendMessage, hq], rfl, rfl, Nat.lt_succ_of_le ht, ht⟩,
         ⟨{ id := t1, text := question, isUser := true, timestamp := t1, isError := false },
           { id := t2 + 1, text := responseText, isUser := false,
             timestamp := rts, isError := false },
           by simp [sendMessage, hq], rfl, rfl, Nat.lt_succ_of_le ht, rfl⟩,
         ⟨{ id := t1, text := "Analyze my budget for the last " ++ toString periodDays ++ " days",
            isUser := true, timestamp := t1, isError := false },
           { id := t2 + 1, text := "Sorry, I could not analyze your budget. Please try again.",
             isUser := false, timestamp := t2, isError := true },
           by simp [analyzeBudget], rfl, rfl, Nat.lt_succ_of_le ht, ht⟩,
         ⟨{ id := t1, text := "Analyze my budget for the last " ++ toString periodDays ++ " days",
            isUser := true, timestamp := t1, isError := false },
           { id := t2 + 1, text := responseText, isUser := false,
             timestamp := rts, isError := false },
           by simp [analyzeBudget], rfl, rfl, Nat.lt_succ_of_le ht, rfl⟩⟩

/-- Witness for the amended C4 at the question hi, a success response
stamped 5 by the server, call time 3 and resolution time 4. -/
theorem advisory_call_appends_pair_witness :
    jsTrim "hi" ≠ "" ∧ (3 : Nat) ≤ 4 ∧
    ((∃ u a, (sendMessage "hi" true initialChatState 3 ApiResult.failure 4).1.messages =
      initialChatState.messages ++ [u, a] ∧ u.isUser = true ∧ a.isUser = false ∧
      u.id < a.id ∧ u.timestamp ≤ a.timestamp) ∧
    (∃ u a,
      (sendMessage "hi" true initialChatState 3 (ApiResult.success "ok" 5) 4).1.messages =
        initialChatState.messages ++ [u, a] ∧ u.isUser = true ∧ a.isUser = false ∧
        u.id < a.id ∧ a.timestamp = 5) ∧
    (∃ u a, (analyzeBudget 30 initialChatState 3 ApiResult.failure 4).1.messages =
      initialChatState.messages ++ [u, a] ∧ u.isUser = true ∧ a.isUser = false ∧
      u.id < a.id ∧ u.timestamp ≤ a.timestamp) ∧
    (∃ u a, (analyzeBudget 30 initialChatState 3 (ApiResult.success "ok" 5) 4).1.messages =
      initialChatState.messages ++ [u, a] ∧ u.isUser = true ∧ a.isUser = false ∧
      u.id < a.id ∧ a.timestamp = 5)) :=
  ⟨by decide, by decide,
    advisory_call_appends_pair "hi" "ok" true initialChatState 3 4 5 30 (by decide) (by decide)⟩

/-- Claim C5 as stated is false: 201 appends starting from an empty
history yield a history of length 201, exceeding the claimed cap of
200 — nothing is ever evicted. -/
theorem history_cap_counterexample :
    200 < (appendAll []
      (List.replicate 201
        { id := 0, text := "m", isUser := true, timestamp := 0, isError := false })).length := by
  rw [appendAll_length, List.length_nil, List.length_replicate]
  norm_num

/-- Claim C5 amended: the history is unbounded — the only mutator of the
messages cell appends unconditionally, so after any sequence of appends
the length is exactly the old length plus the number of appends (no cap
and no eviction, at 200 or anywhere else); only `clearMessages` shrinks
the history, resetting it to empty. -/
theorem history_unbounded (l ms : List ChatMessage) (st : ChatState) :
    (appendAll l ms).length = l.length + ms.length ∧
    (clearMessages st).messages = [] :=
  ⟨appendAll_length l ms, rfl⟩

/-- Claim C6 as stated is false: with `total_expense = 0` and a category
of amount 5, the computed percentage is `Infinity`, not 0 — the
division-by-zero case is not guarded, and the donut label renders it as
such. -/
theorem zero_total_percentage_counterexample :
    categoryPercentage 5 0 = JSVal.posInf ∧
    categoryPercentage 5 0 ≠ JSVal.num 0 ∧
    renderLabel (categoryPercentage 5 0) = "Infinity%" := by
  refine ⟨by decide, by decide, ?_⟩
  norm_num [categoryPercentage, jsDivNum, jsMulNum, renderLabel]

/-- Claim C6 amended: for `total_expense ≠ 0` each slice percentage
equals `amount / total_expense * 100` and the donut label rounds it to
the nearest whole number (`toFixed(0)`, ties upward); the
division-by-zero case is not guarded, so when `total_expense = 0` the
computed percentage is `Infinity`, `-Infinity` or `NaN` — never the
number 0 — for every category present (an empty category map merely
renders the no-data placeholder, computing no percentage at all). -/
theorem expense_percentage_display (amount total_expense : ℚ) :
    (total_expense ≠ 0 →
      categoryPercentage amount total_expense = JSVal.num (amount / total_expense * 100) ∧
      renderLabel (categoryPercentage amount total_expense) =
        toString (jsToFixed0 (amount / total_expense * 100)) ++ "%") ∧
    (total_expense = 0 → categoryPercentage amount total_expense ≠ JSVal.num 0) := by
  constructor
  · intro h
    constructor <;> simp [categoryPercentage, jsDivNum, jsMulNum, renderLabel, h]
  · intro h
    subst h
    rcases lt_trichotomy amount 0 with hc | hc | hc
    · simp [categoryPercentage, jsDivNum, jsMulNum, hc, hc.asymm,
        show (0 : ℚ) < 100 by norm_num]
    · subst hc
      simp [categoryPercentage, jsDivNum, jsMulNum]
    · simp [categoryPercentage, jsDivNum, jsMulNum, hc,
        show (0 : ℚ) < 100 by norm_num]

/-- Witness for the amended C6 at a 50-of-200 slice (25 percent) and at
the unguarded zero total. -/
theorem expense_percentage_display_witness :
    categoryPercentage 50 200 = JSVal.num 25 ∧
    categoryPercentage 5 0 ≠ JSVal.num 0 := by
  constructor
  · have h := ((expense_percentage_display 50 200).1 (by norm_num)).1
    rw [h]
    norm_num
  · exact (expense_percentage_display 5 0).2 rfl

/-- Claim C8 as stated is false: with an empty history but an empty
fetched catalog (as in the initial hook state, or after a failed
quick-question fetch), the catalog is not surfaced even though the
history is empty, so surfacing is not equivalent to the history being
empty. -/
theorem quick_questions_surfacing_counterexample :
    initialChatState.messages = [] ∧
    quickQuestionsSurfaced initialChatState.messages initialChatState.quickQuestions = false := by
  decide

/-- Claim C8 amended: the quick-question catalog is surfaced iff the
history is empty and the fetched catalog is nonempty; selecting a chip
routes the question text unchanged through exactly the same `sendMessage`
call (with the same default `includeContext = true`) as free-form input,
whenever no request is loading. -/
theorem quick_questions_surface_and_route (ms : List ChatMessage) (qs : List String)
    (question : String) (st : ChatState) (t1 t2 : Nat) (res : ApiResult)
    (hload : st.isLoading = false) :
    (quickQuestionsSurfaced ms qs = true ↔ (ms = [] ∧ qs ≠ [])) ∧
    quickQuestionSelect question st t1 res t2 = sendMessage question true st t1 res t2 := by
  constructor
  · simp [quickQuestionsSurfaced, List.length_eq_zero, List.isEmpty_iff]
  · simp [quickQuestionSelect, hload]

/-- Witness for the amended C8 at the initial (idle) state, a singleton
catalog and the question hello. -/
theorem quick_questions_surface_and_route_witness :
    initialChatState.isLoading = false ∧
    ((quickQuestionsSurfaced [] ["What is my balance?"] = true ↔
        (([] : List ChatMessage) = [] ∧ (["What is my balance?"] : List String) ≠ [])) ∧
      quickQuestionSelect "hello" initialChatState 0 ApiResult.failure 0 =
        sendMessage "hello" true initialChatState 0 ApiResult.failure 0) :=
  ⟨rfl, quick_questions_surface_and_route [] ["What is my balance?"] "hello" initialChatState
    0 0 ApiResult.failure rfl⟩
